import Mathlib

/-!
Verification of the TherapyTune repository core logic.

The repository has two source variants of the same single-page application:
a simple variant (src/unnamed/part_000) and an extended variant
(src/index.tsx).  Both share the client-side audio feature extraction
(RMS and zero-crossing rate computed in one pass over the decoded sample
array) and an orchestration flow that issues up to two sequential AI
requests and folds the results into view state.

Sample values are modelled as rationals (the source works on JavaScript
numbers; the algorithmic content of the claims is exact arithmetic), and
the square root for RMS is the real square root.  The orchestration
handlers are modelled as pure functions from an application state and an
environment (the outcome of each external AI call) to the successor state
together with a trace of request and response events, mirroring the
source control flow statement by statement.
-/

namespace TherapyTune

/-! ## Audio feature extraction (analyzeRecordedAudio, identical in both variants)

Source loop, for each index i of the decoded channel data:
  sumSquares += data[i] * data[i];
  if (i > 0 && ((data[i] >= 0 && data[i-1] < 0) || (data[i] < 0 && data[i-1] >= 0)))
    zeroCrossings++;
then rms = sqrt(sumSquares / data.length), zcr = zeroCrossings / data.length.
-/

/-- The sign-change test of the source: data[i] is cur, data[i-1] is prev;
that is (cur >= 0 and prev < 0) or (cur < 0 and prev >= 0). -/
def crossing (prev cur : ℚ) : Bool :=
  (decide (0 ≤ cur) && decide (prev < 0)) || (decide (cur < 0) && decide (0 ≤ prev))

/-- The loop body for indices i > 0, carrying the previous sample:
accumulates the square of each sample and counts sign changes. -/
def featLoop : ℚ → List ℚ → ℚ × ℕ
  | _, [] => (0, 0)
  | prev, cur :: rest =>
      let r := featLoop cur rest
      (cur * cur + r.1, (if crossing prev cur then 1 else 0) + r.2)

/-- The whole loop: index 0 contributes its square but no crossing test. -/
def extractFeatures : List ℚ → ℚ × ℕ
  | [] => (0, 0)
  | first :: rest =>
      let r := featLoop first rest
      (first * first + r.1, r.2)

/-- rms = Math.sqrt(sumSquares / data.length). -/
noncomputable def rmsOf (data : List ℚ) : ℝ :=
  Real.sqrt (((extractFeatures data).1 / (data.length : ℚ) : ℚ) : ℝ)

/-- zcr = zeroCrossings / data.length. -/
def zcrOf (data : List ℚ) : ℚ :=
  ((extractFeatures data).2 : ℚ) / (data.length : ℚ)

/-! Specification-side formulation of the zero-crossing count: the number of
indices i in [1, N) where the sign of data[i] differs from the sign of
data[i-1], a sign of exactly 0 counting as non-negative. -/

/-- Sign under the specified polarity rule: 0 is non-negative. -/
def signNonneg (x : ℚ) : Bool := decide (0 ≤ x)

/-- The list of adjacent pairs (data[i-1], data[i]) for i in [1, N). -/
def adjacentPairs (data : List ℚ) : List (ℚ × ℚ) := data.zip data.tail

/-- Count of adjacent pairs whose signs differ under the 0-is-non-negative rule. -/
def signChangeCount (data : List ℚ) : ℕ :=
  (adjacentPairs data).countP (fun p => signNonneg p.1 != signNonneg p.2)


/-! ## Data model (shared by both variants) -/

/-- AxisState: the five bounded emotional axes plus an optional summary. -/
structure AxisState where
  energy : ℚ
  reality : ℚ
  temporal : ℚ
  repetition : ℚ
  hedonic : ℚ
  summary : Option String
deriving DecidableEq

/-- HEALTHY_TARGET of both variants: energy 0, reality 0.2, temporal 0,
repetition 0, hedonic 0.2, no summary field. -/
def HEALTHY_TARGET : AxisState :=
  { energy := 0, reality := (2 : ℚ) / 10, temporal := 0, repetition := 0,
    hedonic := (2 : ℚ) / 10, summary := none }

/-- INITIAL_STATE of the extended variant. -/
def INITIAL_STATE : AxisState :=
  { energy := 0, reality := 0, temporal := 0, repetition := 0,
    hedonic := 0, summary := some ("Neutral") }

structure VoiceMetrics where
  pitch : String
  stability : String
  speed : String
  note : String
deriving DecidableEq

/-- Song of the simple variant. -/
structure Song where
  title : String
  artist : String
  target_state : AxisState
  therapeutic_note : String
  color_hex : String
deriving DecidableEq

/-- Song of the extended variant, with the extra axis_shifts field. -/
structure SongX where
  title : String
  artist : String
  target_state : AxisState
  therapeutic_note : String
  color_hex : String
  axis_shifts : AxisState
deriving DecidableEq

/-- Parsed playlist response of the simple variant. -/
structure PlaylistRespS where
  songs : List Song
  voice_analysis : Option VoiceMetrics
deriving DecidableEq

/-- Parsed playlist response of the extended variant. -/
structure PlaylistRespX where
  songs : List SongX
  journey_narrative : String
  iso_insight : String
  total_shift : AxisState
deriving DecidableEq

/-- Parsed state-analysis response of the simple variant (the required
schema fields plus the optional voice_analysis; the source casts the parsed
JSON without any range validation, so the numeric fields are arbitrary). -/
structure AnalysisResp where
  energy : ℚ
  reality : ℚ
  temporal : ℚ
  repetition : ℚ
  hedonic : ℚ
  summary : String
  voice_analysis : Option VoiceMetrics
deriving DecidableEq

/-- Parsed state-analysis response of the extended variant. -/
structure AiSuggestion where
  suggested_state : AxisState
  reasoning : String
  voice_analysis : Option VoiceMetrics
deriving DecidableEq

/-- A recorded audio blob, identified by its base64 payload. -/
structure Blob where
  base64 : String
deriving DecidableEq

/-- The client-side metrics pair stored by analyzeRecordedAudio. -/
structure MetricsPair where
  rms : ℝ
  zcr : ℚ

/-! ## String helpers -/

/-- Model of the JavaScript String.prototype.trim used by the submit guards. -/
def jsTrim (s : String) : String :=
  String.mk (((s.data.dropWhile Char.isWhitespace).reverse.dropWhile
    Char.isWhitespace).reverse)

/-- Render a scaled integer as a fixed-point decimal string with nd digits. -/
def fixedFromInt (nd : ℕ) (n : ℤ) : String :=
  (if n < 0 then ("-") else ("")) ++ Nat.repr (n.natAbs / 10 ^ nd) ++ (".") ++
    String.mk (List.replicate (nd - (Nat.repr (n.natAbs % 10 ^ nd)).length) '0') ++
    Nat.repr (n.natAbs % 10 ^ nd)

/-- Model of Number.prototype.toFixed on the stored rms value. -/
noncomputable def realToFixed (nd : ℕ) (x : ℝ) : String :=
  fixedFromInt nd
    (if 0 ≤ x then ⌊x * (10 : ℝ) ^ nd + 1 / 2⌋ else -⌊(-x) * (10 : ℝ) ^ nd + 1 / 2⌋)

/-- Model of toFixed on the stored (rational) zcr value. -/
def ratToFixed (nd : ℕ) (q : ℚ) : String :=
  fixedFromInt nd
    (if 0 ≤ q then ⌊q * (10 : ℚ) ^ nd + 1 / 2⌋ else -⌊(-q) * (10 : ℚ) ^ nd + 1 / 2⌋)

/-- Simple variant: the metrics context string of handleAnalyze; the empty
string when no metrics were stored. -/
noncomputable def clientMetricsStrS (m : Option MetricsPair) : String :=
  match m with
  | some mm => ("Client-side metrics detected: RMS(Volume)=") ++ realToFixed 3 mm.rms ++
      (", ZCR(PitchProxy)=") ++ ratToFixed 3 mm.zcr ++ (". ")
  | none => ("")

/-- Extended variant: the metrics context string of handleAnalyzeContext. -/
noncomputable def clientMetricsStrX (m : Option MetricsPair) : String :=
  match m with
  | some mm => ("Metrics: RMS=") ++ realToFixed 2 mm.rms ++
      (", ZCR=") ++ ratToFixed 2 mm.zcr ++ (".")
  | none => ("")

/-- Extended variant: the genre preference fragment of the playlist prompt. -/
def genreStrOf (gs : List String) : String :=
  if gs.length > 0 then ("Preferred genres: ") ++ String.intercalate (", ") gs ++ (". ")
  else ("No preference")

/-- Extended variant: the genre exclusion fragment of the playlist prompt. -/
def excludeStrOf (gs : List String) : String :=
  if gs.length > 0 then ("NEVER include: ") ++ String.intercalate (", ") gs ++ (". ")
  else ("")

/-! ## Orchestration: shared error taxonomy and event traces

An AI call either yields a parsed response or throws: a transport failure,
a body that does not parse as JSON, or a missing response text (resp.text
undefined; JSON.parse then throws in the simple variant, the extended
variant throws explicitly).  All are handled by the same catch block. -/

inductive AiError
  | transport
  | nonJson
  | emptyResponse
deriving DecidableEq

/-- The audio-features update: analyzeRecordedAudio stores the computed pair
on success; on a decode failure the catch block only logs, so the stored
metrics are unchanged. -/
noncomputable def analyzeRecordedAudio (decoded : Option (List ℚ))
    (m : Option MetricsPair) : Option MetricsPair :=
  match decoded with
  | none => m
  | some data => some { rms := rmsOf data, zcr := zcrOf data }

/-! ## Simple variant (src/unnamed/part_000) orchestration -/

inductive ViewS
  | INPUT
  | RECORDING
  | ANALYZING
  | PLAYLIST
deriving DecidableEq

inductive InputMode
  | VOICE
  | TEXT
deriving DecidableEq

/-- Payload of the state-analysis request: inline audio with the metrics
context string, or the free text. -/
inductive AnalysisPayloadS
  | voice (audioBase64 : String) (mimeType : String) (metricsStr : String)
  | text (inputText : String)
deriving DecidableEq

/-- A request issued by the simple variant: the state-analysis call, or the
playlist call whose prompt embeds the current state and the target. -/
inductive RequestS
  | analysis (p : AnalysisPayloadS)
  | playlist (current : AxisState) (target : AxisState)
deriving DecidableEq

inductive EventS
  | request (r : RequestS)
  | response (ok : Bool)
deriving DecidableEq

/-- Environment: the outcome of each of the two AI calls of a session. -/
structure EnvS where
  analysisResult : Except AiError AnalysisResp
  playlistResult : Except AiError PlaylistRespS

/-- Component state of the simple variant App. -/
structure SimpleAppState where
  view : ViewS
  inputMode : InputMode
  userState : Option AxisState
  voiceMetrics : Option VoiceMetrics
  playlist : List Song
  loading : Bool
  inputText : String
  audioBlob : Option Blob
  metrics : Option MetricsPair

/-- The state object built from the parsed analysis response, field by field
exactly as the source does (no clamping, no validation). -/
def stateFromResp (r : AnalysisResp) : AxisState :=
  { energy := r.energy, reality := r.reality, temporal := r.temporal,
    repetition := r.repetition, hedonic := r.hedonic, summary := some r.summary }

/-- The analysis request payload: voice branch when inputMode is VOICE and a
blob exists, text branch otherwise. -/
noncomputable def buildAnalysisPayloadS (s : SimpleAppState) : AnalysisPayloadS :=
  match s.inputMode, s.audioBlob with
  | InputMode.VOICE, some b =>
      AnalysisPayloadS.voice b.base64 ("audio/webm") (clientMetricsStrS s.metrics)
  | _, _ => AnalysisPayloadS.text s.inputText

/-- handleAnalyze of the simple variant: set loading and ANALYZING, issue the
analysis call; on success commit userState and voiceMetrics, then issue the
playlist call with the committed state and HEALTHY_TARGET; on success commit
the songs and show PLAYLIST; any thrown failure is caught by clearing loading
and returning to INPUT. -/
noncomputable def handleAnalyze (s : SimpleAppState) (env : EnvS) :
    SimpleAppState × List EventS :=
  let s1 := { s with loading := true, view := ViewS.ANALYZING }
  let req := RequestS.analysis (buildAnalysisPayloadS s1)
  match env.analysisResult with
  | Except.error _ =>
      ({ s1 with loading := false, view := ViewS.INPUT },
       [EventS.request req, EventS.response false])
  | Except.ok r =>
      let current := stateFromResp r
      let s2 := { s1 with userState := some current, voiceMetrics := r.voice_analysis }
      let preq := RequestS.playlist current HEALTHY_TARGET
      match env.playlistResult with
      | Except.error _ =>
          ({ s2 with loading := false, view := ViewS.INPUT },
           [EventS.request req, EventS.response true,
            EventS.request preq, EventS.response false])
      | Except.ok p =>
          ({ s2 with playlist := p.songs, loading := false, view := ViewS.PLAYLIST },
           [EventS.request req, EventS.response true,
            EventS.request preq, EventS.response true])

/-- The Start Over button of the simple variant PLAYLIST view: it sets the
view to INPUT and clears userState, inputText, audioBlob and voiceMetrics
(and nothing else). -/
def startOverS (s : SimpleAppState) : SimpleAppState :=
  { s with
      view := ViewS.INPUT
      userState := none
      inputText := ("")
      audioBlob := none
      voiceMetrics := none }

/-- The text-mode submit control: disabled exactly when the trimmed input
text is empty; a disabled control fires no handler. -/
def textSubmitEnabledS (s : SimpleAppState) : Bool :=
  !(jsTrim s.inputText == (""))

noncomputable def textSubmitStepS (s : SimpleAppState) (env : EnvS) :
    SimpleAppState × List EventS :=
  if textSubmitEnabledS s then handleAnalyze s env else (s, [])

/-! ## Extended variant (src/index.tsx) orchestration -/

inductive ViewX
  | INPUT
  | ANALYZING
  | CONFIRMATION
  | PLAYLIST
deriving DecidableEq

inductive Tab
  | SLIDERS
  | VOICE
  | TEXT
deriving DecidableEq

/-- Payload of the extended state-analysis request: both branches embed the
manually set state; the voice branch adds inline audio and the metrics
string, the text branch adds the journal text. -/
inductive AnalysisPayloadX
  | voice (manualState : AxisState) (metricsStr : String)
      (audioBase64 : String) (mimeType : String)
  | text (manualState : AxisState) (inputText : String)
deriving DecidableEq

/-- A request of the extended variant; the playlist prompt embeds the final
state, HEALTHY_TARGET and the two genre fragments. -/
inductive RequestX
  | analysis (p : AnalysisPayloadX)
  | playlist (current : AxisState) (target : AxisState)
      (genreStr : String) (excludeStr : String)
deriving DecidableEq

inductive EventX
  | request (r : RequestX)
  | response (ok : Bool)
deriving DecidableEq

structure EnvX where
  analysisResult : Except AiError AiSuggestion
  playlistResult : Except AiError PlaylistRespX

/-- Component state of the extended variant App. -/
structure ExtState where
  view : ViewX
  activeTab : Tab
  manualState : AxisState
  aiSuggestion : Option AiSuggestion
  playlistResult : Option PlaylistRespX
  loading : Bool
  loadingMessage : String
  inputText : String
  selectedGenres : List String
  excludedGenres : List String
  audioBlob : Option Blob
  metrics : Option MetricsPair

noncomputable def buildAnalysisPayloadX (s : ExtState) : AnalysisPayloadX :=
  match s.activeTab, s.audioBlob with
  | Tab.VOICE, some b =>
      AnalysisPayloadX.voice s.manualState (clientMetricsStrX s.metrics)
        b.base64 ("audio/webm")
  | _, _ => AnalysisPayloadX.text s.manualState s.inputText

/-- handleAnalyzeContext: set loading and ANALYZING, issue the analysis call;
on success store the suggestion and show CONFIRMATION; on a thrown failure
clear loading and return to INPUT. -/
noncomputable def handleAnalyzeContext (s : ExtState) (env : EnvX) :
    ExtState × List EventX :=
  let s1 := { s with
      loading := true
      loadingMessage := ("Analyzing your state...")
      view := ViewX.ANALYZING }
  let req := RequestX.analysis (buildAnalysisPayloadX s1)
  match env.analysisResult with
  | Except.error _ =>
      ({ s1 with loading := false, view := ViewX.INPUT },
       [EventX.request req, EventX.response false])
  | Except.ok sug =>
      ({ s1 with
          aiSuggestion := some sug
          loading := false
          view := ViewX.CONFIRMATION },
       [EventX.request req, EventX.response true])

/-- generatePlaylist(finalState): set loading and ANALYZING, issue the
playlist call with the final state and HEALTHY_TARGET; on success store the
result and show PLAYLIST; on a thrown failure clear loading and return to
INPUT. -/
def generatePlaylistX (finalState : AxisState) (s : ExtState) (env : EnvX) :
    ExtState × List EventX :=
  let s1 := { s with
      loading := true
      loadingMessage := ("Curating your therapeutic journey...")
      view := ViewX.ANALYZING }
  let req := RequestX.playlist finalState HEALTHY_TARGET
    (genreStrOf s.selectedGenres) (excludeStrOf s.excludedGenres)
  match env.playlistResult with
  | Except.error _ =>
      ({ s1 with loading := false, view := ViewX.INPUT },
       [EventX.request req, EventX.response false])
  | Except.ok p =>
      ({ s1 with playlistResult := some p, loading := false, view := ViewX.PLAYLIST },
       [EventX.request req, EventX.response true])

/-- The Accept button of the CONFIRMATION view: overwrite manualState with
the suggested state, then generate the playlist from it. -/
def acceptSuggestion (sug : AiSuggestion) (s : ExtState) (env : EnvX) :
    ExtState × List EventX :=
  generatePlaylistX sug.suggested_state { s with manualState := sug.suggested_state } env

/-- The Keep My Settings button: generate the playlist from the unchanged
manual state. -/
def keepSettings (s : ExtState) (env : EnvX) : ExtState × List EventX :=
  generatePlaylistX s.manualState s env

/-- A full extended session through the confirmation step: analysis first,
then, when the CONFIRMATION view was reached, either confirmation choice
triggers playlist generation. -/
noncomputable def extSession (s : ExtState) (env : EnvX) (accept : Bool) :
    ExtState × List EventX :=
  let r1 := handleAnalyzeContext s env
  match r1.1.view, r1.1.aiSuggestion with
  | ViewX.CONFIRMATION, some sug =>
      let r2 := if accept then acceptSuggestion sug r1.1 env else keepSettings r1.1 env
      (r2.1, r1.2 ++ r2.2)
  | _, _ => r1

/-- canProceed of the extended variant: at least one genre selected. -/
def canProceed (s : ExtState) : Bool := decide (s.selectedGenres.length > 0)

/-- The sliders-tab submit button (Find Music for This Mood): disabled unless
canProceed; when enabled it calls generatePlaylist(manualState) directly. -/
def slidersSubmitX (s : ExtState) (env : EnvX) : ExtState × List EventX :=
  if canProceed s then generatePlaylistX s.manualState s env else (s, [])

/-- The extended text-tab submit control: disabled when the trimmed text is
empty or no genre is selected. -/
def textSubmitEnabledX (s : ExtState) : Bool :=
  !(jsTrim s.inputText == ("")) && canProceed s

noncomputable def textSubmitStepX (s : ExtState) (env : EnvX) :
    ExtState × List EventX :=
  if textSubmitEnabledX s then handleAnalyzeContext s env else (s, [])

/-- The Start Over button of the extended PLAYLIST view: it sets the view to
INPUT and clears inputText, audioBlob, aiSuggestion, both genre lists and
playlistResult (and nothing else). -/
def startOverX (s : ExtState) : ExtState :=
  { s with
      view := ViewX.INPUT
      inputText := ("")
      audioBlob := none
      aiSuggestion := none
      selectedGenres := []
      excludedGenres := []
      playlistResult := none }

/-! ## Property-side trace predicates -/

/-- The requests contained in a simple-variant trace. -/
def requestsOfS (t : List EventS) : List RequestS :=
  t.filterMap (fun e => match e with
    | EventS.request r => some r
    | _ => none)

/-- The requests contained in an extended-variant trace. -/
def requestsOfX (t : List EventX) : List RequestX :=
  t.filterMap (fun e => match e with
    | EventX.request r => some r
    | _ => none)

/-- Sequencing checker for simple-variant traces: events come in strict
request-response pairs (so at most one request is ever in flight), and a
playlist request may appear only after some earlier successful response. -/
def seqCheckS : Bool → List EventS → Bool
  | _, [] => true
  | seen, EventS.request (RequestS.analysis _) :: EventS.response b :: rest =>
      seqCheckS (seen || b) rest
  | seen, EventS.request (RequestS.playlist _ _) :: EventS.response b :: rest =>
      seen && seqCheckS (seen || b) rest
  | _, _ => false

/-- Sequencing checker for extended-variant traces. -/
def seqCheckX : Bool → List EventX → Bool
  | _, [] => true
  | seen, EventX.request (RequestX.analysis _) :: EventX.response b :: rest =>
      seqCheckX (seen || b) rest
  | seen, EventX.request (RequestX.playlist _ _ _ _) :: EventX.response b :: rest =>
      seen && seqCheckX (seen || b) rest
  | _, _ => false

/-! ## Concrete fixtures used by witnesses and counterexamples -/

/-- A well-formed analysis response (all axes in range). -/
def sampleRespS : AnalysisResp :=
  { energy := -(7 : ℚ) / 10, reality := -(1 : ℚ) / 10, temporal := -(2 : ℚ) / 10,
    repetition := (1 : ℚ) / 10, hedonic := -(6 : ℚ) / 10,
    summary := ("Depleted"), voice_analysis := none }

/-- An analysis response with an out-of-range energy axis. -/
def badRespS : AnalysisResp :=
  { energy := (3 : ℚ) / 2, reality := 0, temporal := 0,
    repetition := 0, hedonic := 0,
    summary := ("Out of range"), voice_analysis := none }

def sampleSong : Song :=
  { title := ("Weightless"), artist := ("Marconi Union"),
    target_state := HEALTHY_TARGET, therapeutic_note := ("calm"),
    color_hex := ("teal") }

/-- A simple-variant INPUT state in text mode with a non-empty text. -/
def sampleStateS : SimpleAppState :=
  { view := ViewS.INPUT, inputMode := InputMode.TEXT, userState := none,
    voiceMetrics := none, playlist := [], loading := false,
    inputText := ("I feel heavy"), audioBlob := none, metrics := none }

/-- A simple-variant INPUT state in voice mode with a captured blob and no
stored metrics (the decode of the blob failed). -/
def voiceStateS : SimpleAppState :=
  { view := ViewS.INPUT, inputMode := InputMode.VOICE, userState := none,
    voiceMetrics := none, playlist := [], loading := false,
    inputText := (""), audioBlob := some { base64 := ("QUJD") }, metrics := none }

/-- A simple-variant PLAYLIST state carrying a full session result. -/
def playlistStateS : SimpleAppState :=
  { view := ViewS.PLAYLIST, inputMode := InputMode.TEXT,
    userState := some (stateFromResp sampleRespS), voiceMetrics := none,
    playlist := [sampleSong], loading := false,
    inputText := ("I feel heavy"), audioBlob := none,
    metrics := some { rms := 0, zcr := 0 } }

def envAnalysisFailS : EnvS :=
  { analysisResult := Except.error AiError.transport,
    playlistResult := Except.ok { songs := [sampleSong], voice_analysis := none } }

def envPlaylistFailS : EnvS :=
  { analysisResult := Except.ok sampleRespS,
    playlistResult := Except.error AiError.transport }

def envOkS : EnvS :=
  { analysisResult := Except.ok sampleRespS,
    playlistResult := Except.ok { songs := [sampleSong], voice_analysis := none } }

def envBadAxisS : EnvS :=
  { analysisResult := Except.ok badRespS,
    playlistResult := Except.ok { songs := [sampleSong], voice_analysis := none } }

def sampleSugX : AiSuggestion :=
  { suggested_state :=
      { energy := -(1 : ℚ) / 2, reality := 0, temporal := 0, repetition := 0,
        hedonic := -(3 : ℚ) / 10, summary := some ("Suggested") },
    reasoning := ("The text sounds heavier than the sliders."),
    voice_analysis := none }

def samplePlaylistX : PlaylistRespX :=
  { songs := [], journey_narrative := ("A gentle arc."),
    iso_insight := ("Matching first helps."), total_shift := HEALTHY_TARGET }

/-- An extended-variant INPUT state on the sliders tab with one genre. -/
def sampleStateX : ExtState :=
  { view := ViewX.INPUT, activeTab := Tab.SLIDERS,
    manualState :=
      { energy := -(4 : ℚ) / 10, reality := 0, temporal := 0, repetition := 0,
        hedonic := 0, summary := some ("Neutral") },
    aiSuggestion := none, playlistResult := none, loading := false,
    loadingMessage := ("Processing..."), inputText := (""),
    selectedGenres := [("ambient")], excludedGenres := [],
    audioBlob := none, metrics := none }

/-- An extended-variant voice-tab state with a blob and no stored metrics. -/
def voiceStateX : ExtState :=
  { sampleStateX with
      activeTab := Tab.VOICE
      audioBlob := some { base64 := ("QUJD") } }

/-- An extended-variant PLAYLIST state carrying a full session result. -/
def playlistStateX : ExtState :=
  { sampleStateX with
      view := ViewX.PLAYLIST
      aiSuggestion := some sampleSugX
      playlistResult := some samplePlaylistX
      inputText := ("journal")
      metrics := some { rms := 0, zcr := 0 } }

def envAnalysisFailX : EnvX :=
  { analysisResult := Except.error AiError.nonJson,
    playlistResult := Except.ok samplePlaylistX }

def envPlaylistFailX : EnvX :=
  { analysisResult := Except.ok sampleSugX,
    playlistResult := Except.error AiError.emptyResponse }

def envOkX : EnvX :=
  { analysisResult := Except.ok sampleSugX,
    playlistResult := Except.ok samplePlaylistX }

/-! ## Theorems for the audio-feature claims -/

lemma crossing_eq_sign_change (a b : ℚ) :
    crossing a b = (signNonneg a != signNonneg b) := by
  by_cases ha : (0 : ℚ) ≤ a <;> by_cases hb : (0 : ℚ) ≤ b <;>
    simp [crossing, signNonneg, ha, hb, not_le.mp, not_lt.mpr, bne]

lemma featLoop_snd (prev : ℚ) (l : List ℚ) :
    (featLoop prev l).2 =
      ((prev :: l).zip l).countP (fun p => signNonneg p.1 != signNonneg p.2) := by
  induction l generalizing prev with
  | nil => simp [featLoop]
  | cons c rest ih =>
      simp only [featLoop, List.zip_cons_cons, List.countP_cons, ih c,
        crossing_eq_sign_change prev c]
      omega

lemma featLoop_fst (prev : ℚ) (l : List ℚ) :
    (featLoop prev l).1 = (l.map (fun x => x * x)).sum := by
  induction l generalizing prev with
  | nil => simp [featLoop]
  | cons c rest ih => simp [featLoop, ih c]

lemma extractFeatures_snd (data : List ℚ) :
    (extractFeatures data).2 = signChangeCount data := by
  cases data with
  | nil => simp [extractFeatures, signChangeCount, adjacentPairs]
  | cons a l => simp [extractFeatures, signChangeCount, adjacentPairs, featLoop_snd a l]

lemma extractFeatures_fst (data : List ℚ) :
    (extractFeatures data).1 = (data.map (fun x => x * x)).sum := by
  cases data with
  | nil => simp [extractFeatures]
  | cons a l => simp [extractFeatures, featLoop_fst]

lemma sum_squares_nonneg (data : List ℚ) :
    0 ≤ (data.map (fun x => x * x)).sum := by
  apply List.sum_nonneg
  intro y hy
  obtain ⟨x, _, rfl⟩ := List.mem_map.mp hy
  exact mul_self_nonneg x

lemma sum_squares_eq_zero_iff (data : List ℚ) :
    (data.map (fun x => x * x)).sum = 0 ↔ ∀ x ∈ data, x = 0 := by
  induction data with
  | nil => simp
  | cons a l ih =>
      simp only [List.map_cons, List.sum_cons, List.mem_cons]
      constructor
      · intro h0
        have ha : 0 ≤ a * a := mul_self_nonneg a
        have hs : 0 ≤ (l.map (fun x => x * x)).sum := sum_squares_nonneg l
        have haz : a * a = 0 := by nlinarith
        have hlz : (l.map (fun x => x * x)).sum = 0 := by nlinarith
        refine fun x hx => hx.elim (fun hxa => ?_) (fun hxl => ih.mp hlz x hxl)
        subst hxa
        exact mul_self_eq_zero.mp haz
      · intro hall
        have ha : a = 0 := hall a (Or.inl rfl)
        have : ∀ x ∈ l, x = 0 := fun x hx => hall x (Or.inr hx)
        rw [ha, ih.mpr this]
        ring

/-- C2: for every decoded sample array of positive length, the computed zcr
equals the number of adjacent index pairs whose signs differ, divided by N,
where a value of exactly 0 counts as non-negative: a 0 to negative or
negative to 0 pair counts as a crossing, a 0 to 0 pair does not. -/
theorem zcr_eq_sign_change_count (data : List ℚ) (h : 0 < data.length) :
    zcrOf data = (signChangeCount data : ℚ) / (data.length : ℚ) ∧
    crossing 0 (-1) = true ∧ crossing (-1) 0 = true ∧ crossing 0 0 = false := by
  refine ⟨?_, by decide, by decide, by decide⟩
  rw [zcrOf, extractFeatures_snd]

theorem zcr_eq_sign_change_count_witness :
    zcrOf [1, -1, 0] = (signChangeCount [1, -1, 0] : ℚ) / (([1, -1, 0] : List ℚ).length : ℚ) ∧
    crossing 0 (-1) = true ∧ crossing (-1) 0 = true ∧ crossing 0 0 = false :=
  zcr_eq_sign_change_count [1, -1, 0] (by decide)

/-- C3: for every decoded sample array of positive length with every value in
[-1, 1], the computed rms equals sqrt of the mean square; it lies in [0, 1]
and is 0 exactly when every sample is 0. -/
theorem rms_spec (data : List ℚ) (h : 0 < data.length)
    (hb : ∀ x ∈ data, -1 ≤ x ∧ x ≤ 1) :
    rmsOf data = Real.sqrt (((data.map (fun x => x * x)).sum / (data.length : ℚ) : ℚ) : ℝ) ∧
    0 ≤ rmsOf data ∧ rmsOf data ≤ 1 ∧
    (rmsOf data = 0 ↔ ∀ x ∈ data, x = 0) := by
  have hNq : (0 : ℚ) < (data.length : ℚ) := by exact_mod_cast h
  have hmean_nonneg : (0 : ℚ) ≤ (data.map (fun x => x * x)).sum / (data.length : ℚ) :=
    div_nonneg (sum_squares_nonneg data) hNq.le
  have hsum_le : (data.map (fun x => x * x)).sum ≤ (data.length : ℚ) := by
    have h1 : ∀ y ∈ data.map (fun x => x * x), y ≤ (1 : ℚ) := by
      intro y hy
      obtain ⟨x, hx, rfl⟩ := List.mem_map.mp hy
      have := hb x hx
      nlinarith [this.1, this.2]
    calc (data.map (fun x => x * x)).sum
        ≤ (data.map (fun x => x * x)).length • (1 : ℚ) :=
          List.sum_le_card_nsmul _ _ h1
      _ = (data.length : ℚ) := by simp
  have hrw : rmsOf data =
      Real.sqrt (((data.map (fun x => x * x)).sum / (data.length : ℚ) : ℚ) : ℝ) := by
    rw [rmsOf, extractFeatures_fst]
  refine ⟨hrw, ?_, ?_, ?_⟩
  · rw [hrw]; exact Real.sqrt_nonneg _
  · rw [hrw]
    rw [Real.sqrt_le_one]
    have : (data.map (fun x => x * x)).sum / (data.length : ℚ) ≤ 1 :=
      (div_le_one hNq).mpr hsum_le
    exact_mod_cast this
  · rw [hrw]
    have hcast : (0 : ℝ) ≤ (((data.map (fun x => x * x)).sum / (data.length : ℚ) : ℚ) : ℝ) := by
      exact_mod_cast hmean_nonneg
    rw [Real.sqrt_eq_zero hcast]
    have : ((((data.map (fun x => x * x)).sum / (data.length : ℚ) : ℚ) : ℝ) = 0) ↔
        ((data.map (fun x => x * x)).sum / (data.length : ℚ) = 0) := by
      exact_mod_cast Iff.rfl
    rw [this, div_eq_zero_iff]
    constructor
    · intro hc
      rcases hc with hc | hc
      · exact (sum_squares_eq_zero_iff data).mp hc
      · exact absurd hc hNq.ne'
    · intro hall
      exact Or.inl ((sum_squares_eq_zero_iff data).mpr hall)

theorem rms_spec_witness :
    rmsOf [0, 0] = Real.sqrt (((([0, 0] : List ℚ).map (fun x => x * x)).sum /
      (([0, 0] : List ℚ).length : ℚ) : ℚ) : ℝ) ∧
    0 ≤ rmsOf [0, 0] ∧ rmsOf [0, 0] ≤ 1 ∧
    (rmsOf [0, 0] = 0 ↔ ∀ x ∈ ([0, 0] : List ℚ), x = 0) :=
  rms_spec [0, 0] (by decide) (by intro x hx; fin_cases hx <;> norm_num)

lemma signChangeCount_le (data : List ℚ) :
    signChangeCount data ≤ data.length - 1 := by
  have h1 : signChangeCount data ≤ (adjacentPairs data).length :=
    List.countP_le_length _
  have h2 : (adjacentPairs data).length = min data.length (data.length - 1) := by
    simp [adjacentPairs, List.length_zip]
  omega

lemma signChangeCount_of_chain (data : List ℚ)
    (h : List.Chain' (fun a b => signNonneg a ≠ signNonneg b) data) :
    signChangeCount data = data.length - 1 := by
  induction data with
  | nil => simp [signChangeCount, adjacentPairs]
  | cons a l ih =>
      cases l with
      | nil => simp [signChangeCount, adjacentPairs]
      | cons b r =>
          rw [List.chain'_cons] at h
          have h2 := ih h.2
          simp only [signChangeCount, adjacentPairs, List.tail_cons,
            List.zip_cons_cons, List.countP_cons] at h2 ⊢
          have hab : (signNonneg a != signNonneg b) = true := by
            simpa [bne_iff_ne] using h.1
          simp only [hab, if_true, List.length_cons] at h2 ⊢
          omega

lemma signChangeCount_of_const_sign (data : List ℚ)
    (h : (∀ x ∈ data, 0 ≤ x) ∨ (∀ x ∈ data, x < 0)) :
    signChangeCount data = 0 := by
  rw [signChangeCount, List.countP_eq_zero]
  rintro ⟨u, v⟩ hmem
  have hz : (u, v) ∈ data.zip data.tail := hmem
  have hu : u ∈ data := (List.of_mem_zip hz).1
  have hv : v ∈ data := List.mem_of_mem_tail (List.of_mem_zip hz).2
  rcases h with h | h
  · simp [signNonneg, h u hu, h v hv]
  · simp [signNonneg, not_le.mpr (h u hu), not_le.mpr (h v hv)]

/-- C7: for every sample array of positive length, zcr lies in [0, 1); a
constant-sign array yields zcr = 0; a strictly sign-alternating array yields
zcr = (N - 1) / N. -/
theorem zcr_bounds (data : List ℚ) (h : 0 < data.length) :
    0 ≤ zcrOf data ∧ zcrOf data < 1 ∧
    ((∀ x ∈ data, 0 ≤ x) ∨ (∀ x ∈ data, x < 0) → zcrOf data = 0) ∧
    (List.Chain' (fun a b => signNonneg a ≠ signNonneg b) data →
      zcrOf data = ((data.length - 1 : ℕ) : ℚ) / (data.length : ℚ)) := by
  have hNq : (0 : ℚ) < (data.length : ℚ) := by exact_mod_cast h
  have hzcr : zcrOf data = (signChangeCount data : ℚ) / (data.length : ℚ) := by
    rw [zcrOf, extractFeatures_snd]
  refine ⟨?_, ?_, ?_, ?_⟩
  · rw [hzcr]
    exact div_nonneg (Nat.cast_nonneg _) hNq.le
  · rw [hzcr, div_lt_one hNq]
    have := signChangeCount_le data
    have hlt : signChangeCount data < data.length := by omega
    exact_mod_cast hlt
  · intro hconst
    rw [hzcr, signChangeCount_of_const_sign data hconst]
    simp
  · intro hchain
    rw [hzcr, signChangeCount_of_chain data hchain]

theorem zcr_bounds_witness :
    (0 ≤ zcrOf [1, -1, 1] ∧ zcrOf [1, -1, 1] < 1 ∧
      ((∀ x ∈ ([1, -1, 1] : List ℚ), 0 ≤ x) ∨ (∀ x ∈ ([1, -1, 1] : List ℚ), x < 0) →
        zcrOf [1, -1, 1] = 0) ∧
      (List.Chain' (fun a b => signNonneg a ≠ signNonneg b) [1, -1, 1] →
        zcrOf [1, -1, 1] = ((([1, -1, 1] : List ℚ).length - 1 : ℕ) : ℚ) /
          (([1, -1, 1] : List ℚ).length : ℚ))) ∧
    zcrOf [1, -1, 1] = ((([1, -1, 1] : List ℚ).length - 1 : ℕ) : ℚ) /
      (([1, -1, 1] : List ℚ).length : ℚ) :=
  ⟨zcr_bounds [1, -1, 1] (by decide),
   (zcr_bounds [1, -1, 1] (by decide)).2.2.2
     (by simp [List.chain'_cons, signNonneg])⟩

/-! ## Theorems for the orchestration claims -/

/-- C6 counterexample: Start Over does not clear everything.  In the simple
variant the Playlist array and the stored AudioFeatures metrics survive the
reset; in the extended variant the current EmotionalState is not reset to the
defaults and the AudioFeatures metrics survive as well. -/
theorem start_over_counterexample :
    (startOverS playlistStateS).playlist = [sampleSong] ∧
    (startOverS playlistStateS).metrics.isSome = true ∧
    (startOverX playlistStateX).manualState = playlistStateX.manualState ∧
    (startOverX playlistStateX).manualState ≠ INITIAL_STATE ∧
    (startOverX playlistStateX).metrics.isSome = true := by
  refine ⟨rfl, rfl, rfl, ?_, rfl⟩
  intro hEq
  have h2 := congrArg AxisState.energy hEq
  simp only [startOverX, playlistStateX, sampleStateX, INITIAL_STATE] at h2
  norm_num at h2

/-- C6 amended: Start Over returns the view to INPUT and clears, in the
simple variant, the current EmotionalState, the text input, the recorded blob
and the voice metrics, and in the extended variant the text input, the
recorded blob, the AI suggestion, both genre selections and the playlist
result; it leaves the simple-variant Playlist array, the extended-variant
manual EmotionalState, and the AudioFeatures metrics of both variants
unchanged. -/
theorem start_over_effect (s : SimpleAppState) (x : ExtState) :
    (startOverS s).view = ViewS.INPUT ∧ (startOverS s).userState = none ∧
    (startOverS s).inputText = ("") ∧ (startOverS s).audioBlob = none ∧
    (startOverS s).voiceMetrics = none ∧
    (startOverS s).playlist = s.playlist ∧ (startOverS s).metrics = s.metrics ∧
    (startOverX x).view = ViewX.INPUT ∧ (startOverX x).inputText = ("") ∧
    (startOverX x).audioBlob = none ∧ (startOverX x).aiSuggestion = none ∧
    (startOverX x).selectedGenres = [] ∧ (startOverX x).excludedGenres = [] ∧
    (startOverX x).playlistResult = none ∧
    (startOverX x).manualState = x.manualState ∧ (startOverX x).metrics = x.metrics := by
  repeat first | constructor | rfl

/-- C9: submitting in text mode with empty or whitespace-only text is
impossible: the submit control is enabled exactly when the trimmed text is
non-empty (extended variant: and at least one genre is selected), and a
disabled submit leaves the state unchanged and issues no request. -/
theorem empty_text_never_submits (s : SimpleAppState) (x : ExtState)
    (env : EnvS) (envx : EnvX) :
    (textSubmitEnabledS s = true ↔ jsTrim s.inputText ≠ ("")) ∧
    (jsTrim s.inputText = ("") → textSubmitStepS s env = (s, [])) ∧
    (textSubmitEnabledX x = true ↔
      (jsTrim x.inputText ≠ ("") ∧ x.selectedGenres ≠ [])) ∧
    (jsTrim x.inputText = ("") → textSubmitStepX x envx = (x, [])) := by
  have hS : textSubmitEnabledS s = true ↔ jsTrim s.inputText ≠ ("") := by
    simp [textSubmitEnabledS]
  have hX : textSubmitEnabledX x = true ↔
      (jsTrim x.inputText ≠ ("") ∧ x.selectedGenres ≠ []) := by
    simp [textSubmitEnabledX, canProceed, List.length_pos]
  refine ⟨hS, ?_, hX, ?_⟩
  · intro he
    have : textSubmitEnabledS s = false := by
      cases hb : textSubmitEnabledS s with
      | false => rfl
      | true => exact absurd he (hS.mp hb)
    simp [textSubmitStepS, this]
  · intro he
    have : textSubmitEnabledX x = false := by
      cases hb : textSubmitEnabledX x with
      | false => rfl
      | true => exact absurd he (fun hh => (hX.mp hb).1 hh)
    simp [textSubmitStepX, this]

theorem empty_text_never_submits_witness :
    (textSubmitEnabledS { sampleStateS with inputText := ("  ") } = true ↔
      jsTrim ({ sampleStateS with inputText := ("  ") } : SimpleAppState).inputText ≠ ("")) ∧
    (jsTrim ({ sampleStateS with inputText := ("  ") } : SimpleAppState).inputText = ("") →
      textSubmitStepS { sampleStateS with inputText := ("  ") } envOkS =
        ({ sampleStateS with inputText := ("  ") }, [])) ∧
    (textSubmitEnabledX sampleStateX = true ↔
      (jsTrim sampleStateX.inputText ≠ ("") ∧ sampleStateX.selectedGenres ≠ [])) ∧
    (jsTrim sampleStateX.inputText = ("") →
      textSubmitStepX sampleStateX envOkX = (sampleStateX, [])) :=
  empty_text_never_submits { sampleStateS with inputText := ("  ") } sampleStateX
    envOkS envOkX

/-- C8: a failed decode of the captured blob degrades silently: the stored
metrics are unchanged (none stays none), the metrics context string of both
variants is the empty string when no metrics exist, and the state-analysis
request is still issued, carrying the audio with an empty metrics string. -/
theorem decode_failure_degrades (s : SimpleAppState) (x : ExtState)
    (env : EnvS) (envx : EnvX) (m : Option MetricsPair) (b : Blob) :
    analyzeRecordedAudio none m = m ∧
    clientMetricsStrS none = ("") ∧
    clientMetricsStrX none = ("") ∧
    (s.inputMode = InputMode.VOICE → s.audioBlob = some b → s.metrics = none →
      (handleAnalyze s env).2.head? = some (EventS.request (RequestS.analysis
        (AnalysisPayloadS.voice b.base64 ("audio/webm") (""))))) ∧
    (x.activeTab = Tab.VOICE → x.audioBlob = some b → x.metrics = none →
      (handleAnalyzeContext x envx).2.head? = some (EventX.request (RequestX.analysis
        (AnalysisPayloadX.voice x.manualState ("") b.base64 ("audio/webm"))))) := by
  refine ⟨rfl, rfl, rfl, ?_, ?_⟩
  · intro hm hb hmet
    cases henv : env.analysisResult with
    | error e =>
        simp [handleAnalyze, henv, buildAnalysisPayloadS, hm, hb, hmet, clientMetricsStrS]
    | ok r =>
        cases henv2 : env.playlistResult <;>
          simp [handleAnalyze, henv, henv2, buildAnalysisPayloadS, hm, hb, hmet,
            clientMetricsStrS]
  · intro hm hb hmet
    cases henv : envx.analysisResult with
    | error e =>
        simp [handleAnalyzeContext, henv, buildAnalysisPayloadX, hm, hb, hmet,
          clientMetricsStrX]
    | ok r =>
        simp [handleAnalyzeContext, henv, buildAnalysisPayloadX, hm, hb, hmet,
          clientMetricsStrX]

theorem decode_failure_degrades_witness :
    analyzeRecordedAudio none none = (none : Option MetricsPair) ∧
    clientMetricsStrS none = ("") ∧
    clientMetricsStrX none = ("") ∧
    (voiceStateS.inputMode = InputMode.VOICE →
      voiceStateS.audioBlob = some { base64 := ("QUJD") } →
      voiceStateS.metrics = none →
      (handleAnalyze voiceStateS envOkS).2.head? =
        some (EventS.request (RequestS.analysis
          (AnalysisPayloadS.voice (Blob.mk ("QUJD")).base64 ("audio/webm") (""))))) ∧
    (voiceStateX.activeTab = Tab.VOICE →
      voiceStateX.audioBlob = some { base64 := ("QUJD") } →
      voiceStateX.metrics = none →
      (handleAnalyzeContext voiceStateX envOkX).2.head? =
        some (EventX.request (RequestX.analysis
          (AnalysisPayloadX.voice voiceStateX.manualState ("")
            (Blob.mk ("QUJD")).base64 ("audio/webm"))))) :=
  decode_failure_degrades voiceStateS voiceStateX envOkS envOkX none
    { base64 := ("QUJD") }

/-- C10: in the extended variant, the sliders-tab submit calls playlist
generation directly on the current slider state: exactly one request is
issued and it is the playlist request carrying manualState and
HEALTHY_TARGET; no state-analysis request is issued, the suggestion state is
untouched and the CONFIRMATION view is never reached. -/
theorem sliders_submit_direct (x : ExtState) (envx : EnvX)
    (h : canProceed x = true) :
    requestsOfX (slidersSubmitX x envx).2 =
      [RequestX.playlist x.manualState HEALTHY_TARGET
        (genreStrOf x.selectedGenres) (excludeStrOf x.excludedGenres)] ∧
    (∀ p, RequestX.analysis p ∉ requestsOfX (slidersSubmitX x envx).2) ∧
    (slidersSubmitX x envx).1.view ≠ ViewX.CONFIRMATION ∧
    (slidersSubmitX x envx).1.aiSuggestion = x.aiSuggestion ∧
    ((slidersSubmitX x envx).1.view = ViewX.PLAYLIST ∨
      (slidersSubmitX x envx).1.view = ViewX.INPUT) := by
  cases henv : envx.playlistResult with
  | error e =>
      refine ⟨?_, ?_, ?_, ?_, Or.inr ?_⟩ <;>
        simp [slidersSubmitX, h, generatePlaylistX, henv, requestsOfX]
  | ok p =>
      refine ⟨?_, ?_, ?_, ?_, Or.inl ?_⟩ <;>
        simp [slidersSubmitX, h, generatePlaylistX, henv, requestsOfX]

theorem sliders_submit_direct_witness :
    requestsOfX (slidersSubmitX sampleStateX envOkX).2 =
      [RequestX.playlist sampleStateX.manualState HEALTHY_TARGET
        (genreStrOf sampleStateX.selectedGenres)
        (excludeStrOf sampleStateX.excludedGenres)] ∧
    (∀ p, RequestX.analysis p ∉ requestsOfX (slidersSubmitX sampleStateX envOkX).2) ∧
    (slidersSubmitX sampleStateX envOkX).1.view ≠ ViewX.CONFIRMATION ∧
    (slidersSubmitX sampleStateX envOkX).1.aiSuggestion = sampleStateX.aiSuggestion ∧
    ((slidersSubmitX sampleStateX envOkX).1.view = ViewX.PLAYLIST ∨
      (slidersSubmitX sampleStateX envOkX).1.view = ViewX.INPUT) :=
  sliders_submit_direct sampleStateX envOkX (by decide)

/-- C1 counterexample: in the simple variant, when the playlist call fails
after the state-analysis call succeeded, the view does return to INPUT with
loading cleared and no Playlist stored, but the EmotionalState committed from
the analysis of the failed session is still stored: userState is not cleared,
contradicting the claim that no EmotionalState from the failed session is
stored. -/
theorem analyze_failure_counterexample :
    (handleAnalyze sampleStateS envPlaylistFailS).1.view = ViewS.INPUT ∧
    (handleAnalyze sampleStateS envPlaylistFailS).1.loading = false ∧
    (handleAnalyze sampleStateS envPlaylistFailS).1.playlist = [] ∧
    (handleAnalyze sampleStateS envPlaylistFailS).1.userState.isSome = true ∧
    (handleAnalyze sampleStateS envPlaylistFailS).1.userState =
      some (stateFromResp sampleRespS) :=
  ⟨rfl, rfl, rfl, rfl, rfl⟩

/-- C1 amended: every AI-call failure during ANALYZING returns the view to
INPUT with the loading flag cleared and commits no Playlist; a state-analysis
failure commits nothing at all, but in the simple variant a playlist-call
failure after a successful analysis leaves the EmotionalState computed from
that analysis committed in userState. -/
theorem analyze_failure_resets (s : SimpleAppState) (x : ExtState)
    (env : EnvS) (envx : EnvX) (fs : AxisState) :
    (∀ e, env.analysisResult = Except.error e →
      (handleAnalyze s env).1.view = ViewS.INPUT ∧
      (handleAnalyze s env).1.loading = false ∧
      (handleAnalyze s env).1.userState = s.userState ∧
      (handleAnalyze s env).1.voiceMetrics = s.voiceMetrics ∧
      (handleAnalyze s env).1.playlist = s.playlist) ∧
    (∀ r e, env.analysisResult = Except.ok r → env.playlistResult = Except.error e →
      (handleAnalyze s env).1.view = ViewS.INPUT ∧
      (handleAnalyze s env).1.loading = false ∧
      (handleAnalyze s env).1.playlist = s.playlist ∧
      (handleAnalyze s env).1.userState = some (stateFromResp r)) ∧
    (∀ e, envx.analysisResult = Except.error e →
      (handleAnalyzeContext x envx).1.view = ViewX.INPUT ∧
      (handleAnalyzeContext x envx).1.loading = false ∧
      (handleAnalyzeContext x envx).1.aiSuggestion = x.aiSuggestion ∧
      (handleAnalyzeContext x envx).1.playlistResult = x.playlistResult ∧
      (handleAnalyzeContext x envx).1.manualState = x.manualState) ∧
    (∀ e, envx.playlistResult = Except.error e →
      (generatePlaylistX fs x envx).1.view = ViewX.INPUT ∧
      (generatePlaylistX fs x envx).1.loading = false ∧
      (generatePlaylistX fs x envx).1.playlistResult = x.playlistResult) := by
  refine ⟨?_, ?_, ?_, ?_⟩
  · intro e hA
    simp [handleAnalyze, hA]
  · intro r e hA hP
    simp [handleAnalyze, hA, hP]
  · intro e hA
    simp [handleAnalyzeContext, hA]
  · intro e hP
    simp [generatePlaylistX, hP]

theorem analyze_failure_resets_witness :
    ((handleAnalyze sampleStateS envAnalysisFailS).1.view = ViewS.INPUT ∧
      (handleAnalyze sampleStateS envAnalysisFailS).1.loading = false ∧
      (handleAnalyze sampleStateS envAnalysisFailS).1.userState = sampleStateS.userState ∧
      (handleAnalyze sampleStateS envAnalysisFailS).1.voiceMetrics =
        sampleStateS.voiceMetrics ∧
      (handleAnalyze sampleStateS envAnalysisFailS).1.playlist = sampleStateS.playlist) ∧
    ((handleAnalyze sampleStateS envPlaylistFailS).1.view = ViewS.INPUT ∧
      (handleAnalyze sampleStateS envPlaylistFailS).1.loading = false ∧
      (handleAnalyze sampleStateS envPlaylistFailS).1.playlist = sampleStateS.playlist ∧
      (handleAnalyze sampleStateS envPlaylistFailS).1.userState =
        some (stateFromResp sampleRespS)) ∧
    ((handleAnalyzeContext sampleStateX envAnalysisFailX).1.view = ViewX.INPUT ∧
      (handleAnalyzeContext sampleStateX envAnalysisFailX).1.loading = false ∧
      (handleAnalyzeContext sampleStateX envAnalysisFailX).1.aiSuggestion =
        sampleStateX.aiSuggestion ∧
      (handleAnalyzeContext sampleStateX envAnalysisFailX).1.playlistResult =
        sampleStateX.playlistResult ∧
      (handleAnalyzeContext sampleStateX envAnalysisFailX).1.manualState =
        sampleStateX.manualState) ∧
    ((generatePlaylistX HEALTHY_TARGET sampleStateX envPlaylistFailX).1.view =
        ViewX.INPUT ∧
      (generatePlaylistX HEALTHY_TARGET sampleStateX envPlaylistFailX).1.loading = false ∧
      (generatePlaylistX HEALTHY_TARGET sampleStateX envPlaylistFailX).1.playlistResult =
        sampleStateX.playlistResult) :=
  ⟨(analyze_failure_resets sampleStateS sampleStateX envAnalysisFailS envAnalysisFailX
      HEALTHY_TARGET).1 AiError.transport rfl,
   (analyze_failure_resets sampleStateS sampleStateX envPlaylistFailS envAnalysisFailX
      HEALTHY_TARGET).2.1 sampleRespS AiError.transport rfl rfl,
   (analyze_failure_resets sampleStateS sampleStateX envAnalysisFailS envAnalysisFailX
      HEALTHY_TARGET).2.2.1 AiError.nonJson rfl,
   (analyze_failure_resets sampleStateS sampleStateX envAnalysisFailS envPlaylistFailX
      HEALTHY_TARGET).2.2.2 AiError.emptyResponse rfl⟩

/-- C4 counterexample: an out-of-range axis value arriving in the AI response
is stored and used unmodified: an analysis response with energy 3/2 is
committed verbatim as the current state, although 3/2 is outside [-1, 1]. -/
theorem axis_values_counterexample :
    (handleAnalyze sampleStateS envBadAxisS).1.userState =
      some (stateFromResp badRespS) ∧
    (stateFromResp badRespS).energy = (3 : ℚ) / 2 ∧
    ¬ ((3 : ℚ) / 2 ≤ 1) :=
  ⟨rfl, rfl, by norm_num⟩

/-- C4 amended: slider input is restricted to [-1, 1] by the range control,
but axis values arriving in the external AI response are neither clamped nor
validated: the parsed response is committed verbatim, field by field, in both
variants, and an accepted suggestion overwrites the manual state verbatim. -/
theorem axis_values_stored_unmodified (s : SimpleAppState) (x : ExtState)
    (env : EnvS) (envx : EnvX) :
    (∀ r, env.analysisResult = Except.ok r →
      (handleAnalyze s env).1.userState = some (stateFromResp r)) ∧
    (∀ sug, envx.analysisResult = Except.ok sug →
      (handleAnalyzeContext x envx).1.aiSuggestion = some sug) ∧
    (∀ sug, (acceptSuggestion sug x envx).1.manualState = sug.suggested_state) := by
  refine ⟨?_, ?_, ?_⟩
  · intro r hA
    cases hP : env.playlistResult <;> simp [handleAnalyze, hA, hP]
  · intro sug hA
    simp [handleAnalyzeContext, hA]
  · intro sug
    cases hP : envx.playlistResult <;> simp [acceptSuggestion, generatePlaylistX, hP]

theorem axis_values_stored_unmodified_witness :
    (handleAnalyze sampleStateS envBadAxisS).1.userState =
      some (stateFromResp badRespS) ∧
    (handleAnalyzeContext sampleStateX envOkX).1.aiSuggestion = some sampleSugX ∧
    (acceptSuggestion sampleSugX sampleStateX envOkX).1.manualState =
      sampleSugX.suggested_state :=
  ⟨(axis_values_stored_unmodified sampleStateS sampleStateX envBadAxisS envOkX).1
      badRespS rfl,
   (axis_values_stored_unmodified sampleStateS sampleStateX envBadAxisS envOkX).2.1
      sampleSugX rfl,
   (axis_values_stored_unmodified sampleStateS sampleStateX envBadAxisS envOkX).2.2
      sampleSugX⟩

/-- C5: the two AI requests of a session are strictly sequential.  In both
variants every trace consists of strict request-response pairs (so at most
one request is in flight at any time) and a playlist request appears only
after an earlier successful response; every playlist request carries the
constant HEALTHY_TARGET together with the current state: the state committed
from the analysis response (simple variant), the accepted suggestion or the
kept manual state (extended session), or the state passed to direct playlist
generation. -/
theorem requests_sequential (s : SimpleAppState) (x : ExtState)
    (env : EnvS) (envx : EnvX) (accept : Bool) (fs : AxisState) :
    seqCheckS false (handleAnalyze s env).2 = true ∧
    (∀ c t, RequestS.playlist c t ∈ requestsOfS (handleAnalyze s env).2 →
      t = HEALTHY_TARGET ∧
      ∃ r, env.analysisResult = Except.ok r ∧ c = stateFromResp r) ∧
    seqCheckX false (extSession x envx accept).2 = true ∧
    (∀ c t g e, RequestX.playlist c t g e ∈ requestsOfX (extSession x envx accept).2 →
      t = HEALTHY_TARGET ∧
      ∃ sug, envx.analysisResult = Except.ok sug ∧
        c = (if accept then sug.suggested_state else x.manualState)) ∧
    (∀ c t g e, RequestX.playlist c t g e ∈ requestsOfX (generatePlaylistX fs x envx).2 →
      c = fs ∧ t = HEALTHY_TARGET) := by
  refine ⟨?_, ?_, ?_, ?_, ?_⟩
  · cases hA : env.analysisResult with
    | error e => simp [handleAnalyze, hA, seqCheckS]
    | ok r => cases hP : env.playlistResult <;> simp [handleAnalyze, hA, hP, seqCheckS]
  · intro c t hmem
    cases hA : env.analysisResult with
    | error e => simp [handleAnalyze, hA, requestsOfS] at hmem
    | ok r =>
        cases hP : env.playlistResult <;>
          simp [handleAnalyze, hA, hP, requestsOfS] at hmem <;>
          exact ⟨hmem.2, r, rfl, hmem.1⟩
  · cases hA : envx.analysisResult with
    | error e => simp [extSession, handleAnalyzeContext, hA, seqCheckX]
    | ok sug =>
        cases hP : envx.playlistResult <;> cases accept <;>
          simp [extSession, handleAnalyzeContext, acceptSuggestion, keepSettings,
            generatePlaylistX, hA, hP, seqCheckX]
  · intro c t g e hmem
    cases hA : envx.analysisResult with
    | error em =>
        simp [extSession, handleAnalyzeContext, hA, requestsOfX] at hmem
    | ok sug =>
        cases hP : envx.playlistResult <;> cases accept <;>
          simp [extSession, handleAnalyzeContext, acceptSuggestion, keepSettings,
            generatePlaylistX, hA, hP, requestsOfX] at hmem <;>
          exact ⟨hmem.2.1, sug, rfl, hmem.1⟩
  · intro c t g e hmem
    cases hP : envx.playlistResult <;>
      simp [generatePlaylistX, hP, requestsOfX] at hmem <;>
      exact ⟨hmem.1, hmem.2.1⟩

theorem requests_sequential_witness :
    (HEALTHY_TARGET = HEALTHY_TARGET ∧
      ∃ r, envOkS.analysisResult = Except.ok r ∧
        stateFromResp sampleRespS = stateFromResp r) ∧
    (HEALTHY_TARGET = HEALTHY_TARGET ∧
      ∃ sug, envOkX.analysisResult = Except.ok sug ∧
        sampleSugX.suggested_state =
          (if true then sug.suggested_state else sampleStateX.manualState)) ∧
    (sampleStateX.manualState = sampleStateX.manualState ∧
      HEALTHY_TARGET = HEALTHY_TARGET) :=
  ⟨(requests_sequential sampleStateS sampleStateX envOkS envOkX true
      sampleStateX.manualState).2.1 (stateFromResp sampleRespS) HEALTHY_TARGET
      (by simp [handleAnalyze, envOkS, requestsOfS]),
   (requests_sequential sampleStateS sampleStateX envOkS envOkX true
      sampleStateX.manualState).2.2.2.1 sampleSugX.suggested_state HEALTHY_TARGET
      (genreStrOf sampleStateX.selectedGenres) (excludeStrOf sampleStateX.excludedGenres)
      (by simp [extSession, handleAnalyzeContext, acceptSuggestion, generatePlaylistX,
        envOkX, requestsOfX]),
   (requests_sequential sampleStateS sampleStateX envOkS envOkX true
      sampleStateX.manualState).2.2.2.2 sampleStateX.manualState HEALTHY_TARGET
      (genreStrOf sampleStateX.selectedGenres) (excludeStrOf sampleStateX.excludedGenres)
      (by simp [generatePlaylistX, envOkX, requestsOfX])⟩

end TherapyTune
